import Mathlib

/-!
Shallow embedding of the CRM-ENV backend (organization / user / invitation /
audit subsystem) and proofs about its route handlers.

Sources embedded:
  * src/server/routes/organizations.js
  * src/server/routes/users.js
  * src/server/index.js (JSON body-parsing pipeline)

Conventions of the embedding:
  * every SQL table is a `List` of rows inside a `DB` record;
  * `NOW()` is an explicit `now : Nat` argument threaded through handlers;
  * auto-increment ids produced by `INSERT` are explicit `nextId` arguments;
  * a JS truthiness test `!s` on a request string field is modelled as
    `s = ""` (an absent field and the empty string are both falsy);
  * a request field whose *absence* matters (destructuring defaults) is
    an `Option`;
  * bcrypt hashes are modelled as the pair (password, cost) — the model
    records exactly what was hashed and with which cost factor;
  * floating-point percentage arithmetic is modelled over `ℚ`.
-/

namespace CRM

/-- A bcrypt digest, modelled as the hashed password together with the
cost factor that was passed to `bcrypt.hash`. -/
structure Hash where
  password : String
  rounds : Nat
deriving DecidableEq, Repr

/-- Row of `organizations`. -/
structure Organization where
  id : Nat
  name : String
  plan : Option String
  contact_limit : Nat
  monthly_email_limit : Nat
deriving DecidableEq, Repr

/-- Row of `users`. -/
structure User where
  id : Nat
  organization_id : Nat
  email : String
  password_hash : Hash
  first_name : String
  last_name : String
  role : String
  status : String
deriving DecidableEq, Repr

/-- Row of `user_invitations`. -/
structure Invitation where
  id : Nat
  organization_id : Nat
  email : String
  role : String
  token : String
  expires_at : Nat
  accepted_at : Option Nat
  invited_by : Nat
deriving DecidableEq, Repr

/-- Row of `contacts` (only the columns the embedded queries touch). -/
structure Contact where
  id : Nat
  organization_id : Nat
  status : String
deriving DecidableEq, Repr

/-- Row of `campaigns` (only the columns the embedded queries touch). -/
structure Campaign where
  id : Nat
  organization_id : Nat
  created_by : Nat
  send_count : Nat
  sent_at : Option Nat
deriving DecidableEq, Repr

/-- Row of `organization_settings`. -/
structure Setting where
  organization_id : Nat
  setting_key : String
  setting_value : String
deriving DecidableEq, Repr

/-- Row of `audit_logs`.  `old_values` / `new_values` hold the
JSON-serialised snapshots as association lists. -/
structure AuditLog where
  organization_id : Nat
  user_id : Option Nat
  action : String
  resource_type : String
  resource_id : Option Nat
  old_values : Option (List (String × String))
  new_values : Option (List (String × String))
  ip_address : Option String
  timestamp : Nat
deriving DecidableEq, Repr

/-- The database state: one list per table. -/
structure DB where
  organizations : List Organization
  users : List User
  invitations : List Invitation
  contacts : List Contact
  campaigns : List Campaign
  settings : List Setting
  audit_logs : List AuditLog
deriving DecidableEq, Repr

/-- The identity `authenticateToken` attaches to the request:
`{id, organizationId, role, permissions}`. -/
structure AuthUser where
  id : Nat
  organizationId : Nat
  role : String
  permissions : List String
deriving DecidableEq, Repr

/-- Modelled from the spec: `src/server/middleware/auth.js` is not among the
reviewed sources; per §4.1 of the specification, `requirePermission(name)`
composes after authentication and rejects with HTTP 403 when the resolved
permission set lacks `name`, and otherwise passes the request on. -/
def requirePermission (perm : String) (caller : AuthUser) : Bool :=
  caller.permissions.contains perm

/-- A JSON response from a mutating route: HTTP status plus the
`message`/`error` text. -/
structure Resp where
  status : Nat
  body : String
deriving DecidableEq, Repr

/-- `COUNT(DISTINCT x.id)` over a list of rows. -/
def countDistinct (ids : List Nat) : Nat := ids.dedup.length

/-! ### GET /api/organizations  (organizations.js lines 9–34) -/

/-- The success payload of GET /api/organizations: the organization row
(`o.*`) plus the three derived counts. -/
structure OrgView where
  org : Organization
  user_count : Nat
  contact_count : Nat
  campaign_count : Nat
deriving DecidableEq, Repr

/-- GET /api/organizations.  Selects the single organization with
`o.id = req.user.organizationId`, counting distinct active users, contacts
and campaigns joined on `organization_id = o.id`.  `none` models the 404
branch (`organizations.length === 0`). -/
def getOrganization (db : DB) (orgId : Nat) : Option OrgView :=
  match (db.organizations.filter (fun o => o.id == orgId)) with
  | [] => none
  | o :: _ =>
    some { org := o
         , user_count := countDistinct
             ((db.users.filter
                 (fun u => u.organization_id == o.id && u.status == "active")).map
               (fun u => u.id))
         , contact_count := countDistinct
             ((db.contacts.filter (fun c => c.organization_id == o.id)).map
               (fun c => c.id))
         , campaign_count := countDistinct
             ((db.campaigns.filter (fun c => c.organization_id == o.id)).map
               (fun c => c.id)) }

/-- Two database states agree on everything scoped to organization
`orgId`: the organization row itself and the rows of the joined tables
whose `organization_id` is `orgId`. -/
def orgScopedEq (db db' : DB) (orgId : Nat) : Prop :=
  db.organizations.filter (fun o => o.id == orgId)
    = db'.organizations.filter (fun o => o.id == orgId)
  ∧ db.users.filter (fun u => u.organization_id == orgId)
    = db'.users.filter (fun u => u.organization_id == orgId)
  ∧ db.contacts.filter (fun c => c.organization_id == orgId)
    = db'.contacts.filter (fun c => c.organization_id == orgId)
  ∧ db.campaigns.filter (fun c => c.organization_id == orgId)
    = db'.campaigns.filter (fun c => c.organization_id == orgId)

instance (db db' : DB) (orgId : Nat) : Decidable (orgScopedEq db db' orgId) := by
  unfold orgScopedEq; infer_instance

/-- Filtering by a conjunction `q a && p a` factors through filtering by `q`,
so two lists agreeing after `filter q` also agree after the composite filter. -/
theorem filter_and_congr {α : Type} (p q : α → Bool) {l l' : List α}
    (h : l.filter q = l'.filter q) :
    l.filter (fun a => q a && p a) = l'.filter (fun a => q a && p a) := by
  have e : ∀ m : List α, m.filter (fun a => q a && p a) = (m.filter q).filter p := by
    intro m
    induction m with
    | nil => simp
    | cons x xs ih =>
      by_cases hq : q x <;> by_cases hp : p x <;>
        simp [List.filter_cons, hq, hp, ih]
  rw [e, e, h]

/-! ### users.js routes -/

/-- Milliseconds in seven days: `7 * 24 * 60 * 60 * 1000` (users.js line 61). -/
def sevenDaysMs : Nat := 7 * 24 * 60 * 60 * 1000

/-- The cost factor passed to `bcrypt.hash` in POST /api/users/accept-invitation
(users.js line 108): the literal `12`.  The environment variable
`BCRYPT_ROUNDS` declared in `.env.example` is never read here. -/
def acceptInvitationBcryptRounds : Nat := 12

/-- Modelled from the spec (refinement reference only, not from the source):
"Hashes the password (bcrypt, cost factor from configuration, default 12)" —
the cost factor the specification says should be used, i.e. the configured
`BCRYPT_ROUNDS` when present and 12 otherwise. -/
def specBcryptRounds (bcryptRoundsEnv : Option Nat) : Nat :=
  bcryptRoundsEnv.getD 12

/-- POST /api/users/invite (users.js lines 31–82), including the
`requirePermission('manage_users')` gate.  `role` is `none` when the body
omits the field (the destructuring default `role = 'user'` then applies);
`token` is the fresh `uuidv4()`; `nextInvId` the auto-increment id. -/
def usersInvite (db : DB) (now : Nat) (caller : AuthUser) (ip : String)
    (email : String) (role : Option String) (token : String) (nextInvId : Nat) :
    Resp × DB :=
  if ¬ requirePermission "manage_users" caller then (⟨403, "Forbidden"⟩, db)
  else
    let effRole := role.getD "user"
    if email = "" then (⟨400, "Email is required"⟩, db)
    else if ¬ (db.users.filter (fun u => u.email == email)).isEmpty then
      (⟨400, "User with this email already exists"⟩, db)
    else if ¬ (db.invitations.filter (fun i =>
        i.email == email && i.organization_id == caller.organizationId &&
        i.accepted_at.isNone && decide (now < i.expires_at))).isEmpty then
      (⟨400, "Invitation already sent to this email"⟩, db)
    else
      let inv : Invitation :=
        ⟨nextInvId, caller.organizationId, email, effRole, token,
         now + sevenDaysMs, none, caller.id⟩
      let entry : AuditLog :=
        ⟨caller.organizationId, some caller.id, "user_invited",
         "user_invitation", none, none,
         some [("email", email), ("role", effRole)], some ip, now⟩
      (⟨201, "User invitation sent successfully"⟩,
       { db with invitations := db.invitations ++ [inv]
               , audit_logs := db.audit_logs ++ [entry] })

/-- POST /api/users/accept-invitation (users.js lines 85–131),
unauthenticated.  The invitation lookup mirrors the SQL: token match,
`accepted_at IS NULL`, `expires_at > NOW()`, and the inner JOIN on
`organizations`.  `nextUserId` is the auto-increment `insertId`. -/
def usersAcceptInvitation (db : DB) (now : Nat)
    (token password firstName lastName : String) (nextUserId : Nat) :
    Resp × DB :=
  if token = "" ∨ password = "" ∨ firstName = "" ∨ lastName = "" then
    (⟨400, "All fields are required"⟩, db)
  else
    match db.invitations.filter (fun i =>
        i.token == token && i.accepted_at.isNone && decide (now < i.expires_at) &&
        ¬ (db.organizations.filter (fun o => o.id == i.organization_id)).isEmpty) with
    | [] => (⟨400, "Invalid or expired invitation"⟩, db)
    | inv :: _ =>
      let newUser : User :=
        ⟨nextUserId, inv.organization_id, inv.email,
         ⟨password, acceptInvitationBcryptRounds⟩,
         firstName, lastName, inv.role, "active"⟩
      let entry : AuditLog :=
        ⟨inv.organization_id, some nextUserId, "user_registered", "user",
         some nextUserId, none,
         some [("email", inv.email), ("role", inv.role)], none, now⟩
      (⟨200, "Account created successfully"⟩,
       { db with users := db.users ++ [newUser]
               , invitations := db.invitations.map (fun i =>
                   if i.id == inv.id then { i with accepted_at := some now } else i)
               , audit_logs := db.audit_logs ++ [entry] })

/-- PUT /api/users/:userId/role (users.js lines 134–172), including the
permission gate. -/
def usersUpdateRole (db : DB) (now : Nat) (caller : AuthUser) (ip : String)
    (userId : Nat) (role : String) : Resp × DB :=
  if ¬ requirePermission "manage_users" caller then (⟨403, "Forbidden"⟩, db)
  else if ¬ (["admin", "manager", "user"].contains role) then
    (⟨400, "Invalid role"⟩, db)
  else
    match db.users.filter (fun u =>
        u.id == userId && u.organization_id == caller.organizationId) with
    | [] => (⟨404, "User not found"⟩, db)
    | u :: _ =>
      let entry : AuditLog :=
        ⟨caller.organizationId, some caller.id, "user_role_updated", "user",
         some userId, some [("role", u.role)], some [("role", role)],
         some ip, now⟩
      (⟨200, "User role updated successfully"⟩,
       { db with users := db.users.map (fun v =>
                   if v.id == userId then { v with role := role } else v)
               , audit_logs := db.audit_logs ++ [entry] })

/-- PUT /api/users/:userId/deactivate (users.js lines 175–210), including
the permission gate.  The organization-membership lookup runs first; the
self-deactivation check `parseInt(userId) === req.user.id` follows it. -/
def usersDeactivate (db : DB) (now : Nat) (caller : AuthUser) (ip : String)
    (userId : Nat) : Resp × DB :=
  if ¬ requirePermission "manage_users" caller then (⟨403, "Forbidden"⟩, db)
  else
    match db.users.filter (fun u =>
        u.id == userId && u.organization_id == caller.organizationId) with
    | [] => (⟨404, "User not found"⟩, db)
    | _ :: _ =>
      if userId == caller.id then
        (⟨400, "Cannot deactivate your own account"⟩, db)
      else
        let entry : AuditLog :=
          ⟨caller.organizationId, some caller.id, "user_deactivated", "user",
           some userId, none, some [("status", "inactive")], some ip, now⟩
        (⟨200, "User deactivated successfully"⟩,
         { db with users := db.users.map (fun v =>
                     if v.id == userId then { v with status := "inactive" } else v)
                 , audit_logs := db.audit_logs ++ [entry] })

/-- DELETE /api/users/invitations/:invitationId (users.js lines 233–261),
including the permission gate. -/
def usersCancelInvitation (db : DB) (now : Nat) (caller : AuthUser) (ip : String)
    (invitationId : Nat) : Resp × DB :=
  if ¬ requirePermission "manage_users" caller then (⟨403, "Forbidden"⟩, db)
  else
    match db.invitations.filter (fun i =>
        i.id == invitationId && i.organization_id == caller.organizationId) with
    | [] => (⟨404, "Invitation not found"⟩, db)
    | inv :: _ =>
      let entry : AuditLog :=
        ⟨caller.organizationId, some caller.id, "invitation_cancelled",
         "user_invitation", some invitationId,
         some [("email", inv.email)], none, some ip, now⟩
      (⟨200, "Invitation cancelled successfully"⟩,
       { db with invitations := db.invitations.filter
                   (fun i => ¬ (i.id == invitationId))
               , audit_logs := db.audit_logs ++ [entry] })

/-! ### organizations.js mutating routes -/

/-- JSON serialisation of an optional string column (`null` when absent). -/
def optStr : Option String → String
  | none => "null"
  | some s => s

/-- PUT /api/organizations (organizations.js lines 37–75), including the
`requirePermission('manage_organization')` gate.  `plan` is `none` when the
body omits it.  When the caller's organization row is missing, the audit
insert fails on the undefined bind parameter after the (no-op) UPDATE and
the handler answers 500 with the database unchanged. -/
def orgUpdate (db : DB) (now : Nat) (caller : AuthUser) (ip : String)
    (name : String) (plan : Option String) : Resp × DB :=
  if ¬ requirePermission "manage_organization" caller then (⟨403, "Forbidden"⟩, db)
  else if name = "" then (⟨400, "Organization name is required"⟩, db)
  else
    match db.organizations.filter (fun o => o.id == caller.organizationId) with
    | [] => (⟨500, "Failed to update organization"⟩, db)
    | o :: _ =>
      let entry : AuditLog :=
        ⟨caller.organizationId, some caller.id, "organization_updated",
         "organization", some caller.organizationId,
         some [("name", o.name), ("plan", optStr o.plan)],
         some [("name", name), ("plan", optStr plan)], some ip, now⟩
      (⟨200, "Organization updated successfully"⟩,
       { db with organizations := db.organizations.map (fun p =>
                   if p.id == caller.organizationId then
                     { p with name := name, plan := plan } else p)
               , audit_logs := db.audit_logs ++ [entry] })

/-- `INSERT ... ON DUPLICATE KEY UPDATE setting_value = VALUES(setting_value)`
on `organization_settings` (organizations.js lines 103–107). -/
def upsertSetting (l : List Setting) (orgId : Nat) (k v : String) : List Setting :=
  if (l.filter (fun s => s.organization_id == orgId && s.setting_key == k)).isEmpty then
    l ++ [⟨orgId, k, v⟩]
  else
    l.map (fun s =>
      if s.organization_id == orgId && s.setting_key == k then
        { s with setting_value := v } else s)

/-- PUT /api/organizations/settings (organizations.js lines 98–121),
including the permission gate: one upsert per submitted key, then a single
audit entry for the whole batch. -/
def orgUpdateSettings (db : DB) (now : Nat) (caller : AuthUser) (ip : String)
    (settings : List (String × String)) : Resp × DB :=
  if ¬ requirePermission "manage_organization" caller then (⟨403, "Forbidden"⟩, db)
  else
    let entry : AuditLog :=
      ⟨caller.organizationId, some caller.id, "settings_updated",
       "organization_settings", none, none, some settings, some ip, now⟩
    (⟨200, "Settings updated successfully"⟩,
     { db with settings := settings.foldl
                 (fun acc kv => upsertSetting acc caller.organizationId kv.1 kv.2)
                 db.settings
             , audit_logs := db.audit_logs ++ [entry] })

/-! ### GET /api/organizations/usage (organizations.js lines 124–153) -/

/-- The usage payload: the selected row plus the computed percentages.
JavaScript float arithmetic is modelled over `ℚ`. -/
structure UsageView where
  contact_limit : Nat
  monthly_email_limit : Nat
  current_contacts : Nat
  emails_sent_this_month : Nat
  contacts_pct : ℚ
  emails_pct : ℚ
deriving DecidableEq, Repr

/-- The percentage ternary of organizations.js lines 141–142:
`limit > 0 ? current / limit * 100 : 0`, over `ℚ`. -/
def usagePct (current limit : Nat) : ℚ :=
  if 0 < limit then (current : ℚ) / (limit : ℚ) * 100 else 0

/-- GET /api/organizations/usage.  `monthAgo` is
`DATE_SUB(NOW(), INTERVAL 1 MONTH)`.  The two LEFT JOINs fan out: every
campaign row of the window is repeated once per joined active-contact row,
so `SUM(cam.send_count)` is multiplied by the number of active contact rows
(one when there are none, the LEFT JOIN keeping a NULL row).  `none` models
the failure branch reached when the organization row is absent
(`usage` is `undefined` and the property access throws → 500). -/
def orgGetUsage (db : DB) (monthAgo : Nat) (orgId : Nat) : Option UsageView :=
  match db.organizations.filter (fun o => o.id == orgId) with
  | [] => none
  | o :: _ =>
    let activeContacts := db.contacts.filter (fun c =>
      c.organization_id == o.id && c.status == "active")
    let windowCampaigns := db.campaigns.filter (fun c =>
      c.organization_id == o.id &&
      match c.sent_at with
      | some t => decide (monthAgo ≤ t)
      | none => false)
    let currentContacts := countDistinct (activeContacts.map (fun c => c.id))
    let emailsSent :=
      max 1 activeContacts.length * (windowCampaigns.map (fun c => c.send_count)).sum
    some { contact_limit := o.contact_limit
         , monthly_email_limit := o.monthly_email_limit
         , current_contacts := currentContacts
         , emails_sent_this_month := emailsSent
         , contacts_pct := usagePct currentContacts o.contact_limit
         , emails_pct := usagePct emailsSent o.monthly_email_limit }

/-! ### GET /api/organizations/audit-logs (organizations.js lines 156–191) -/

/-- `parseInt(q) || d`: the default replaces an absent/unparsable parameter
(`none`, since `NaN` is falsy) and also a parsed `0` (falsy as well). -/
def defaulted (q : Option Nat) (d : Nat) : Nat :=
  match q with
  | none => d
  | some 0 => d
  | some (n + 1) => n + 1

/-- The caller's audit rows ordered `timestamp DESC` (newest first). -/
def sortedLogs (db : DB) (orgId : Nat) : List AuditLog :=
  (db.audit_logs.filter (fun a => a.organization_id == orgId)).mergeSort
    (fun a b => b.timestamp ≤ a.timestamp)

/-- Response of GET /api/organizations/audit-logs. -/
structure AuditPage where
  logs : List AuditLog
  page : Nat
  limit : Nat
  total : Nat
  pages : Nat
deriving DecidableEq, Repr

/-- GET /api/organizations/audit-logs: page/limit defaulting, `LIMIT ?
OFFSET ?` over the rows ordered newest-first, and
`pages = Math.ceil(total / limit)` (over naturals, `(total+limit-1)/limit`). -/
def orgGetAuditLogs (db : DB) (orgId : Nat) (pageQ limitQ : Option Nat) :
    AuditPage :=
  let page := defaulted pageQ 1
  let limit := defaulted limitQ 50
  let offset := (page - 1) * limit
  let total := (db.audit_logs.filter (fun a => a.organization_id == orgId)).length
  { logs := ((sortedLogs db orgId).drop offset).take limit
  , page := page, limit := limit, total := total
  , pages := (total + limit - 1) / limit }

/-! ### JSON body-parsing pipeline (index.js lines 51–81) -/

/-- Outcome of the body-parsing stage for a POST/PUT carrying a JSON body:
either the route handlers run, or a response was produced first. -/
inductive BodyOutcome
  | routed
  | responded (status : Nat) (body : String)
deriving DecidableEq, Repr

/-- The shape of an error travelling down the express error-middleware
chain, as far as the handlers inspect it. -/
structure MwError where
  isSyntaxError : Bool
  status : Nat
  hasBody : Bool
deriving DecidableEq, Repr

/-- The guard of the JSON-error middleware (index.js line 76):
`error instanceof SyntaxError && error.status === 400 && 'body' in error`. -/
def jsonErrorMatches (e : MwError) : Bool :=
  e.isSyntaxError && e.status == 400 && e.hasBody

/-- The error-middleware chain of index.js applied to error `e` when a
response `pre` may already have been written: the JSON-error middleware
(lines 74–81) answers 400 "Invalid JSON in request body" when its guard
matches, else the global handler (lines 109–128) answers 500; a response
already sent stands (`res.headersSent`). -/
def errorChain (pre : Option (Nat × String)) (e : MwError) : Nat × String :=
  match pre with
  | some r => r
  | none =>
    if jsonErrorMatches e then (400, "Invalid JSON in request body")
    else (500, "Internal server error")

/-- The body-parsing stage of index.js (lines 51–81) for a request whose
body the json parser processes.  `validJson` says whether `JSON.parse`
accepts the raw body; `strictTopLevel` whether its first character opens an
object or array (body-parser strict mode).  An invalid body makes the
`verify` callback (lines 53–60) send 400 `{error:'Invalid JSON'}` and throw
a plain `Error`, which body-parser wraps as a 403 `entity.verify.failed`
error — not a `SyntaxError`, so the chain leaves the sent response in
place.  A valid but non-strict body makes body-parser itself throw a
`SyntaxError` with status 400 carrying `body`, which the JSON-error
middleware converts. -/
def processJsonBody (validJson strictTopLevel : Bool) : BodyOutcome :=
  if validJson then
    if strictTopLevel then .routed
    else
      let r := errorChain none ⟨true, 400, true⟩
      .responded r.1 r.2
  else
    let r := errorChain (some (400, "Invalid JSON")) ⟨false, 403, true⟩
    .responded r.1 r.2

end CRM

namespace CRM

/-- **C1.** GET /api/organizations is tenant-isolated: any returned view is
the row whose id equals the caller's organizationId, and the whole response
is determined by the data scoped to that organization alone — two database
states agreeing on the caller's organization produce identical responses,
whatever the other tenants' data. -/
theorem C1_get_organization_tenant_isolation (db db' : DB) (orgId : Nat)
    (h : orgScopedEq db db' orgId) :
    (∀ v : OrgView, getOrganization db orgId = some v → v.org.id = orgId) ∧
    getOrganization db orgId = getOrganization db' orgId := by
  obtain ⟨horg, husers, hcontacts, hcampaigns⟩ := h
  constructor
  · intro v hv
    unfold getOrganization at hv
    cases hfo : db.organizations.filter (fun o => o.id == orgId) with
    | nil => rw [hfo] at hv; exact absurd hv (by simp)
    | cons o rest =>
      rw [hfo] at hv
      have ho : o.id = orgId := by
        have hm : o ∈ db.organizations.filter (fun o => o.id == orgId) := by
          rw [hfo]; exact List.mem_cons_self _ _
        simpa using List.of_mem_filter hm
      simp only [Option.some.injEq] at hv
      rw [← hv]
      exact ho
  · unfold getOrganization
    rw [← horg]
    cases hfo : db.organizations.filter (fun o => o.id == orgId) with
    | nil => rfl
    | cons o rest =>
      have ho : o.id = orgId := by
        have hm : o ∈ db.organizations.filter (fun o => o.id == orgId) := by
          rw [hfo]; exact List.mem_cons_self _ _
        simpa using List.of_mem_filter hm
      simp only [ho, Option.some.injEq, OrgView.mk.injEq]
      refine ⟨trivial, ?_, ?_, ?_⟩
      · exact congrArg (fun l => countDistinct (l.map (fun u : User => u.id)))
          (filter_and_congr (fun u => u.status == "active")
            (fun u => u.organization_id == orgId) husers)
      · rw [hcontacts]
      · rw [hcampaigns]

/-- Witness for C1 at a concrete pair of states: the two databases differ
only in a second tenant's data, and the hypothesis and conclusion hold. -/
theorem C1_get_organization_tenant_isolation_witness :
    orgScopedEq
      ⟨[⟨1, "Acme", some "pro", 100, 1000⟩],
       [⟨10, 1, "a@x", ⟨"p", 12⟩, "A", "B", "admin", "active"⟩,
        ⟨11, 2, "b@y", ⟨"q", 12⟩, "C", "D", "user", "active"⟩],
       [], [⟨20, 1, "active"⟩], [], [], []⟩
      ⟨[⟨1, "Acme", some "pro", 100, 1000⟩, ⟨2, "Evil", none, 5, 5⟩],
       [⟨10, 1, "a@x", ⟨"p", 12⟩, "A", "B", "admin", "active"⟩],
       [], [⟨20, 1, "active"⟩, ⟨21, 2, "active"⟩], [], [], []⟩ 1 ∧
    ((∀ v : OrgView,
        getOrganization
          ⟨[⟨1, "Acme", some "pro", 100, 1000⟩],
           [⟨10, 1, "a@x", ⟨"p", 12⟩, "A", "B", "admin", "active"⟩,
            ⟨11, 2, "b@y", ⟨"q", 12⟩, "C", "D", "user", "active"⟩],
           [], [⟨20, 1, "active"⟩], [], [], []⟩ 1 = some v → v.org.id = 1) ∧
      getOrganization
        ⟨[⟨1, "Acme", some "pro", 100, 1000⟩],
         [⟨10, 1, "a@x", ⟨"p", 12⟩, "A", "B", "admin", "active"⟩,
          ⟨11, 2, "b@y", ⟨"q", 12⟩, "C", "D", "user", "active"⟩],
         [], [⟨20, 1, "active"⟩], [], [], []⟩ 1 =
      getOrganization
        ⟨[⟨1, "Acme", some "pro", 100, 1000⟩, ⟨2, "Evil", none, 5, 5⟩],
         [⟨10, 1, "a@x", ⟨"p", 12⟩, "A", "B", "admin", "active"⟩],
         [], [⟨20, 1, "active"⟩, ⟨21, 2, "active"⟩], [], [], []⟩ 1) :=
  ⟨by decide, C1_get_organization_tenant_isolation _ _ 1 (by decide)⟩

/-- A concrete organization with `contact_limit = 100` and 25 active
contacts, for the usage example of the specification. -/
def usageDemoDB : DB :=
  ⟨[⟨1, "Acme", none, 100, 1000⟩], [], [],
   (List.range 25).map (fun n => ⟨n, 1, "active"⟩), [], [], []⟩

/-- **C5.** GET /api/organizations/usage: the percentage is
`current / limit × 100` when the limit is positive and `0` when the limit
is zero (no division by zero); both response percentages are computed by
this guarded formula; concretely `contact_limit = 100` with
`current_contacts = 25` yields 25 (the demo state has 25 active contacts). -/
theorem C5_usage_percentage_guard (db : DB) (monthAgo orgId current limit : Nat) :
    usagePct current 0 = 0 ∧
    (0 < limit → usagePct current limit = (current : ℚ) / (limit : ℚ) * 100) ∧
    usagePct 25 100 = 25 ∧
    (∀ w : UsageView, orgGetUsage db monthAgo orgId = some w →
      w.contacts_pct = usagePct w.current_contacts w.contact_limit ∧
      w.emails_pct = usagePct w.emails_sent_this_month w.monthly_email_limit) ∧
    (orgGetUsage usageDemoDB 0 1).map
      (fun w => (w.current_contacts, w.contact_limit)) = some (25, 100) := by
  refine ⟨by simp [usagePct], fun hl => by simp [usagePct, hl], by norm_num [usagePct], ?_, by decide⟩
  intro w hw
  unfold orgGetUsage at hw
  cases hfo : db.organizations.filter (fun o => o.id == orgId) with
  | nil => rw [hfo] at hw; exact absurd hw (by simp)
  | cons o rest =>
    rw [hfo] at hw
    simp only [Option.some.injEq] at hw
    subst hw
    exact ⟨rfl, rfl⟩

/-- Witness for C5: the positive-limit branch discharged at 100, recovering
the claim's concrete 25 / 100 × 100 example. -/
theorem C5_usage_percentage_guard_witness :
    (0 : Nat) < 100 ∧ usagePct 25 100 = (25 : ℚ) / (100 : ℚ) * 100 :=
  ⟨by decide,
   (C5_usage_percentage_guard ⟨[], [], [], [], [], [], []⟩ 0 0 25 100).2.1 (by decide)⟩

/-- **C7 counterexample.** A syntactically invalid JSON body (e.g. `"{,}"`)
is answered by the `verify` callback with body `{error:"Invalid JSON"}`,
not the claimed `{error:"Invalid JSON in request body"}`. -/
theorem C7_invalid_json_body_counterexample :
    processJsonBody false true = .responded 400 "Invalid JSON" ∧
    "Invalid JSON" ≠ "Invalid JSON in request body" := by
  exact ⟨rfl, by decide⟩

/-- **C7 (amended).** Every POST/PUT whose body is not syntactically valid
JSON is answered 400 — with body `{error:"Invalid JSON"}`, sent by the
`express.json` verify callback — and no route handler runs; the
`{error:"Invalid JSON in request body"}` middleware response is only
reachable for bodies that *are* valid JSON but fail body-parser's strict
top-level check. -/
theorem C7_invalid_json_rejected_before_routes (strictTopLevel : Bool) :
    processJsonBody false strictTopLevel = .responded 400 "Invalid JSON" ∧
    processJsonBody true false = .responded 400 "Invalid JSON in request body" := by
  cases strictTopLevel <;> exact ⟨rfl, rfl⟩

/-- **C9.** The claim says the bcrypt cost factor comes from configuration
(`BCRYPT_ROUNDS`, default 12); users.js line 108 hardcodes `12`.  At the
failing configuration `BCRYPT_ROUNDS = 10` the code still stores a hash of
cost 12: a successful acceptance is evaluated concretely. -/
theorem C9_bcrypt_rounds_hardcoded :
    acceptInvitationBcryptRounds = 12 ∧
    specBcryptRounds (some 10) = 10 ∧
    ((usersAcceptInvitation
        ⟨[⟨1, "Acme", none, 100, 1000⟩], [],
         [⟨5, 1, "e@x", "user", "tok", 100, none, 9⟩], [], [], [], []⟩
        50 "tok" "pw" "F" "L" 77).2.users.map (fun u => u.password_hash.rounds))
      = [12] ∧
    acceptInvitationBcryptRounds ≠ specBcryptRounds (some 10) := by
  refine ⟨rfl, rfl, by decide, by decide⟩

/-- **C10.** POST /api/users/invite stores the submitted role — defaulting
to "user" when the body omits the field — in the created invitation row and
echoes it in the audit entry's new_values. -/
theorem C10_invite_role_defaults_to_user (db : DB) (now : Nat)
    (caller : AuthUser) (ip email token : String) (role : Option String)
    (nextInvId : Nat)
    (hperm : requirePermission "manage_users" caller = true)
    (hemail : email ≠ "")
    (hnouser : (db.users.filter (fun u => u.email == email)).isEmpty = true)
    (hnoinv : (db.invitations.filter (fun i =>
        i.email == email && i.organization_id == caller.organizationId &&
        i.accepted_at.isNone && decide (now < i.expires_at))).isEmpty = true) :
    (usersInvite db now caller ip email role token nextInvId).1.status = 201 ∧
    (usersInvite db now caller ip email role token nextInvId).2.invitations =
      db.invitations ++
        [⟨nextInvId, caller.organizationId, email, role.getD "user", token,
          now + sevenDaysMs, none, caller.id⟩] ∧
    (usersInvite db now caller ip email role token nextInvId).2.audit_logs =
      db.audit_logs ++
        [⟨caller.organizationId, some caller.id, "user_invited",
          "user_invitation", none, none,
          some [("email", email), ("role", role.getD "user")], some ip, now⟩] ∧
    (role = none → role.getD "user" = "user") := by
  unfold usersInvite
  simp [hperm, hemail, hnouser, hnoinv]
  intro h; rw [h]; rfl

/-- Witness for C10: a fresh invite with the role field omitted. -/
theorem C10_invite_role_defaults_to_user_witness :
    (requirePermission "manage_users" ⟨1, 1, "admin", ["manage_users"]⟩ = true ∧
     "a@b" ≠ "" ∧
     ((⟨[], [], [], [], [], [], []⟩ : DB).users.filter
        (fun u => u.email == "a@b")).isEmpty = true) ∧
    (usersInvite ⟨[], [], [], [], [], [], []⟩ 0 ⟨1, 1, "admin", ["manage_users"]⟩
        "ip" "a@b" none "tok" 1).2.invitations =
      [⟨1, 1, "a@b", "user", "tok", sevenDaysMs, none, 1⟩] :=
  ⟨⟨by decide, by decide, by decide⟩,
   by
    have h := C10_invite_role_defaults_to_user ⟨[], [], [], [], [], [], []⟩ 0
      ⟨1, 1, "admin", ["manage_users"]⟩ "ip" "a@b" "tok" none 1
      (by decide) (by decide) (by decide) (by decide)
    rw [h.2.1]; rfl⟩

/-- **C3.** POST /api/users/invite by a caller holding manage_users: when
the email already belongs to an existing user, or an unexpired un-accepted
invitation for that email and the caller's organization exists, the
response is 400 and the database — in particular the invitations table —
is unchanged. -/
theorem C3_duplicate_invite_rejected (db : DB) (now : Nat) (caller : AuthUser)
    (ip email : String) (role : Option String) (token : String) (nextInvId : Nat)
    (hperm : requirePermission "manage_users" caller = true)
    (hdup : (∃ u ∈ db.users, u.email = email) ∨
            (∃ i ∈ db.invitations, i.email = email ∧
              i.organization_id = caller.organizationId ∧
              i.accepted_at = none ∧ now < i.expires_at)) :
    (usersInvite db now caller ip email role token nextInvId).1.status = 400 ∧
    (usersInvite db now caller ip email role token nextInvId).2 = db := by
  unfold usersInvite
  simp only [hperm]
  by_cases hemail : email = ""
  · simp [hemail]
  · have husers :
        ¬ (db.users.filter (fun u => u.email == email)).isEmpty ∨
        ¬ (db.invitations.filter (fun i =>
            i.email == email && i.organization_id == caller.organizationId &&
            i.accepted_at.isNone && decide (now < i.expires_at))).isEmpty := by
      rcases hdup with ⟨u, hu, he⟩ | ⟨i, hi, he, ho, ha, hx⟩
      · left
        have hm : u ∈ db.users.filter (fun u => u.email == email) :=
          List.mem_filter.mpr ⟨hu, by simp [he]⟩
        simpa [List.isEmpty_iff] using List.ne_nil_of_mem hm
      · right
        have hm : i ∈ db.invitations.filter (fun i =>
            i.email == email && i.organization_id == caller.organizationId &&
            i.accepted_at.isNone && decide (now < i.expires_at)) :=
          List.mem_filter.mpr ⟨hi, by simp [he, ho, ha, hx]⟩
        simpa [List.isEmpty_iff] using List.ne_nil_of_mem hm
    rcases husers with hx | hx
    · simp [hemail, hx]
    · by_cases hy : (db.users.filter (fun u => u.email == email)).isEmpty
      · simp [hemail, hy, hx]
      · simp [hemail, hy]

/-- Witness for C3: re-inviting an email with a pending unexpired
invitation. -/
theorem C3_duplicate_invite_rejected_witness :
    (requirePermission "manage_users" ⟨1, 1, "admin", ["manage_users"]⟩ = true ∧
     (∃ i ∈ ([⟨4, 1, "a@b", "user", "t0", 100, none, 1⟩] : List Invitation),
        i.email = "a@b" ∧ i.organization_id = 1 ∧ i.accepted_at = none ∧
        (50 : Nat) < i.expires_at)) ∧
    (usersInvite ⟨[], [], [⟨4, 1, "a@b", "user", "t0", 100, none, 1⟩], [], [], [], []⟩
        50 ⟨1, 1, "admin", ["manage_users"]⟩ "ip" "a@b" none "t1" 9).1.status = 400 :=
  ⟨⟨by decide, by decide⟩,
   (C3_duplicate_invite_rejected
      ⟨[], [], [⟨4, 1, "a@b", "user", "t0", 100, none, 1⟩], [], [], [], []⟩
      50 ⟨1, 1, "admin", ["manage_users"]⟩ "ip" "a@b" none "t1" 9
      (by decide) (Or.inr (by decide))).1⟩

/-- **C8 counterexample.** A caller *without* manage_users who targets
their own user id is rejected with 403 by the permission gate, not with the
claimed 400 — so "the response is 400 ... regardless of the caller's
permissions" fails. -/
theorem C8_self_deactivation_counterexample :
    (usersDeactivate
        ⟨[], [⟨7, 1, "s@x", ⟨"p", 12⟩, "S", "E", "user", "active"⟩],
         [], [], [], [], []⟩
        0 ⟨7, 1, "user", []⟩ "ip" 7).1.status = 403 ∧
    (403 : Nat) ≠ 400 := by
  exact ⟨rfl, by decide⟩

/-- **C8 (amended).** For a caller holding manage_users whose own user row
exists in their organization, PUT /api/users/:userId/deactivate with
userId equal to the caller's id answers 400 and leaves the database — in
particular the caller's status — unchanged; a caller without manage_users
is instead rejected 403 by the permission gate, also without any change. -/
theorem C8_self_deactivation_rejected (db : DB) (now : Nat) (caller : AuthUser)
    (ip : String)
    (hperm : requirePermission "manage_users" caller = true)
    (hrow : (db.users.filter (fun u =>
        u.id == caller.id && u.organization_id == caller.organizationId)).isEmpty
      = false) :
    (usersDeactivate db now caller ip caller.id).1.status = 400 ∧
    (usersDeactivate db now caller ip caller.id).2 = db := by
  unfold usersDeactivate
  simp only [hperm]
  cases hfl : db.users.filter (fun u =>
      u.id == caller.id && u.organization_id == caller.organizationId) with
  | nil => rw [hfl] at hrow; exact absurd hrow (by simp)
  | cons u rest => simp

/-- Witness for C8: an admin with manage_users targeting their own id. -/
theorem C8_self_deactivation_rejected_witness :
    (requirePermission "manage_users" ⟨7, 1, "admin", ["manage_users"]⟩ = true ∧
     (([⟨7, 1, "s@x", ⟨"p", 12⟩, "S", "E", "admin", "active"⟩] : List User).filter
        (fun u => u.id == 7 && u.organization_id == 1)).isEmpty = false) ∧
    (usersDeactivate
        ⟨[], [⟨7, 1, "s@x", ⟨"p", 12⟩, "S", "E", "admin", "active"⟩],
         [], [], [], [], []⟩
        0 ⟨7, 1, "admin", ["manage_users"]⟩ "ip" 7).1.status = 400 :=
  ⟨⟨by decide, by decide⟩,
   (C8_self_deactivation_rejected
      ⟨[], [⟨7, 1, "s@x", ⟨"p", 12⟩, "S", "E", "admin", "active"⟩],
       [], [], [], [], []⟩
      0 ⟨7, 1, "admin", ["manage_users"]⟩ "ip" (by decide) (by decide)).1⟩

/-- A concrete state with 120 audit rows for organization 1, for the
pagination example of the specification. -/
def auditDemoDB : DB :=
  ⟨[], [], [], [], [], [],
   (List.range 120).map (fun n => ⟨1, none, "a", "r", none, none, none, none, n⟩)⟩

/-- The rows ordered newest-first are pairwise non-increasing in timestamp. -/
theorem sortedLogs_pairwise (db : DB) (orgId : Nat) :
    List.Pairwise (fun a b : AuditLog => b.timestamp ≤ a.timestamp)
      (sortedLogs db orgId) := by
  have h := @List.sorted_mergeSort AuditLog
    (fun a b => decide (b.timestamp ≤ a.timestamp))
    (fun a b c hab hbc => by
      simp only [decide_eq_true_eq] at hab hbc ⊢; omega)
    (fun a b => by
      simp only [Bool.or_eq_true, decide_eq_true_eq]; omega)
    (db.audit_logs.filter (fun a => a.organization_id == orgId))
  exact h.imp (fun hx => by simpa using hx)

/-- Ceiling division `(t + m - 1) / m` is the least `p` with `t ≤ m * p`:
it satisfies `t ≤ m * p < t + m`. -/
theorem ceil_div_bounds (t m : Nat) (hm : 0 < m) :
    t ≤ m * ((t + m - 1) / m) ∧ m * ((t + m - 1) / m) < t + m := by
  obtain ⟨q, hq⟩ : ∃ q, (t + m - 1) / m = q := ⟨_, rfl⟩
  obtain ⟨r, hr⟩ : ∃ r, (t + m - 1) % m = r := ⟨_, rfl⟩
  have hdm := Nat.div_add_mod (t + m - 1) m
  rw [hq, hr] at hdm
  have hrlt : r < m := hr ▸ Nat.mod_lt _ hm
  rw [hq]
  obtain ⟨K, hK⟩ : ∃ K, m * q = K := ⟨_, rfl⟩
  rw [hK] at hdm ⊢
  omega

set_option maxRecDepth 8000 in
/-- **C6.** GET /api/organizations/audit-logs: page and limit default to 1
and 50, the response holds at most `limit` rows, taken from the rows
ordered newest-first starting at offset `(page − 1) × limit`, and
`pagination.pages` is the ceiling of `total / limit` (characterised by
`total ≤ limit × pages < total + limit`); with 120 stored rows and the
defaults, page 1 returns 50 rows and pages = 3. -/
theorem C6_audit_logs_pagination (db : DB) (orgId : Nat)
    (pageQ limitQ : Option Nat) :
    let res := orgGetAuditLogs db orgId pageQ limitQ
    res.logs.length ≤ res.limit ∧
    List.Pairwise (fun a b : AuditLog => b.timestamp ≤ a.timestamp) res.logs ∧
    res.logs = ((sortedLogs db orgId).drop ((res.page - 1) * res.limit)).take
      res.limit ∧
    res.total ≤ res.limit * res.pages ∧
    res.limit * res.pages < res.total + res.limit ∧
    res.page = defaulted pageQ 1 ∧
    res.limit = defaulted limitQ 50 ∧
    (orgGetAuditLogs auditDemoDB 1 none none).logs.length = 50 ∧
    (orgGetAuditLogs auditDemoDB 1 none none).page = 1 ∧
    (orgGetAuditLogs auditDemoDB 1 none none).pages = 3 := by
  intro res
  have hm : 0 < defaulted limitQ 50 := by
    rcases limitQ with _ | ⟨_ | n⟩ <;> simp [defaulted]
  have hceil := ceil_div_bounds
    ((db.audit_logs.filter (fun a => a.organization_id == orgId)).length)
    (defaulted limitQ 50) hm
  have hdemo_total :
      (auditDemoDB.audit_logs.filter (fun a => a.organization_id == 1)).length
        = 120 := by
    have hall : ∀ a ∈ auditDemoDB.audit_logs, (a.organization_id == 1) = true := by
      intro a ha
      simp only [auditDemoDB, List.mem_map] at ha
      obtain ⟨n, _, rfl⟩ := ha
      rfl
    rw [List.filter_eq_self.mpr hall]
    simp [auditDemoDB]
  refine ⟨?_, ?_, rfl, hceil.1, hceil.2, rfl, rfl, ?_, rfl, ?_⟩
  · show (((sortedLogs db orgId).drop _).take (defaulted limitQ 50)).length
      ≤ defaulted limitQ 50
    simp [List.length_take]
  · exact List.Pairwise.sublist
      ((List.take_sublist _ _).trans (List.drop_sublist _ _))
      (sortedLogs_pairwise db orgId)
  · show (((sortedLogs auditDemoDB 1).drop ((1 - 1) * 50)).take 50).length = 50
    simp [List.length_take, List.length_drop, sortedLogs,
      List.length_mergeSort, hdemo_total]
  · show ((auditDemoDB.audit_logs.filter
        (fun a => a.organization_id == 1)).length + 50 - 1) / 50 = 3
    rw [hdemo_total]

/-- **C4.** Every successful mutating operation on Organization, Settings,
User or Invitation — organization update, settings batch write, invite,
accept-invitation, role update, deactivate, cancel invitation — appends
exactly one audit_logs entry; in particular the settings write appends one
entry for the whole submitted batch, whatever its size. -/
theorem C4_one_audit_entry_per_mutation (db : DB) (now : Nat)
    (caller : AuthUser) (ip : String) :
    (∀ name plan, (orgUpdate db now caller ip name plan).1.status = 200 →
      (orgUpdate db now caller ip name plan).2.audit_logs.length
        = db.audit_logs.length + 1) ∧
    (∀ kvs : List (String × String),
      (orgUpdateSettings db now caller ip kvs).1.status = 200 →
      (orgUpdateSettings db now caller ip kvs).2.audit_logs.length
        = db.audit_logs.length + 1) ∧
    (∀ email role token nid,
      (usersInvite db now caller ip email role token nid).1.status = 201 →
      (usersInvite db now caller ip email role token nid).2.audit_logs.length
        = db.audit_logs.length + 1) ∧
    (∀ token pw fn ln nid,
      (usersAcceptInvitation db now token pw fn ln nid).1.status = 200 →
      (usersAcceptInvitation db now token pw fn ln nid).2.audit_logs.length
        = db.audit_logs.length + 1) ∧
    (∀ uid role, (usersUpdateRole db now caller ip uid role).1.status = 200 →
      (usersUpdateRole db now caller ip uid role).2.audit_logs.length
        = db.audit_logs.length + 1) ∧
    (∀ uid, (usersDeactivate db now caller ip uid).1.status = 200 →
      (usersDeactivate db now caller ip uid).2.audit_logs.length
        = db.audit_logs.length + 1) ∧
    (∀ iid, (usersCancelInvitation db now caller ip iid).1.status = 200 →
      (usersCancelInvitation db now caller ip iid).2.audit_logs.length
        = db.audit_logs.length + 1) := by
  refine ⟨?_, ?_, ?_, ?_, ?_, ?_, ?_⟩
  · intro name plan
    unfold orgUpdate
    repeat' split
    all_goals simp [List.length_append]
  · intro kvs
    unfold orgUpdateSettings
    repeat' split
    all_goals simp [List.length_append]
  · intro email role token nid
    unfold usersInvite
    repeat' split
    all_goals simp [List.length_append]
  · intro token pw fn ln nid
    unfold usersAcceptInvitation
    repeat' split
    all_goals simp [List.length_append]
  · intro uid role
    unfold usersUpdateRole
    repeat' split
    all_goals simp [List.length_append]
  · intro uid
    unfold usersDeactivate
    repeat' split
    all_goals simp [List.length_append]
  · intro iid
    unfold usersCancelInvitation
    repeat' split
    all_goals simp [List.length_append]

/-- Witness for C4: a two-key settings batch logs a single audit entry. -/
theorem C4_one_audit_entry_per_mutation_witness :
    (orgUpdateSettings ⟨[], [], [], [], [], [], []⟩ 0
        ⟨1, 1, "admin", ["manage_organization"]⟩ "ip"
        [("a", "1"), ("b", "2")]).1.status = 200 ∧
    (orgUpdateSettings ⟨[], [], [], [], [], [], []⟩ 0
        ⟨1, 1, "admin", ["manage_organization"]⟩ "ip"
        [("a", "1"), ("b", "2")]).2.audit_logs.length = 1 :=
  ⟨by decide,
   (C4_one_audit_entry_per_mutation ⟨[], [], [], [], [], [], []⟩ 0
      ⟨1, 1, "admin", ["manage_organization"]⟩ "ip").2.1
     [("a", "1"), ("b", "2")] (by decide)⟩

/-- **C2.** POST /api/users/accept-invitation with non-empty fields and a
token matching a non-accepted, non-expired invitation (of an existing
organization; tokens are unique) creates exactly one user carrying the
invitation's role and organization_id with status "active", stamps the
invitation's accepted_at, and any later acceptance attempt with the same
token answers 400 and changes nothing — in particular creates no user. -/
theorem C2_accept_invitation_single_use (db : DB) (now : Nat)
    (token password firstName lastName : String) (nextUserId : Nat)
    (htok : token ≠ "") (hpw : password ≠ "") (hfn : firstName ≠ "")
    (hln : lastName ≠ "")
    (hmatch : (db.invitations.filter (fun i =>
        i.token == token && i.accepted_at.isNone && decide (now < i.expires_at) &&
        ¬ (db.organizations.filter (fun o => o.id == i.organization_id)).isEmpty)).isEmpty
      = false)
    (huniq : ∀ i ∈ db.invitations, ∀ j ∈ db.invitations,
        i.token = token → j.token = token → i.id = j.id) :
    (∃ inv ∈ db.invitations,
        inv.token = token ∧ inv.accepted_at = none ∧ now < inv.expires_at ∧
        (usersAcceptInvitation db now token password firstName lastName
          nextUserId).1.status = 200 ∧
        (usersAcceptInvitation db now token password firstName lastName
          nextUserId).2.users =
          db.users ++ [⟨nextUserId, inv.organization_id, inv.email,
            ⟨password, acceptInvitationBcryptRounds⟩, firstName, lastName,
            inv.role, "active"⟩] ∧
        (∀ j ∈ (usersAcceptInvitation db now token password firstName lastName
            nextUserId).2.invitations,
          j.token = token → j.accepted_at = some now)) ∧
    (∀ now2 pw2 fn2 ln2 nid2,
      (usersAcceptInvitation
        (usersAcceptInvitation db now token password firstName lastName
          nextUserId).2 now2 token pw2 fn2 ln2 nid2).1.status = 400 ∧
      (usersAcceptInvitation
        (usersAcceptInvitation db now token password firstName lastName
          nextUserId).2 now2 token pw2 fn2 ln2 nid2).2 =
        (usersAcceptInvitation db now token password firstName lastName
          nextUserId).2) := by
  have hcond : ¬ (token = "" ∨ password = "" ∨ firstName = "" ∨ lastName = "") := by
    simp [htok, hpw, hfn, hln]
  cases hfl : db.invitations.filter (fun i =>
      i.token == token && i.accepted_at.isNone && decide (now < i.expires_at) &&
      ¬ (db.organizations.filter (fun o => o.id == i.organization_id)).isEmpty) with
  | nil => rw [hfl] at hmatch; exact absurd hmatch (by simp)
  | cons inv rest =>
    have hmem : inv ∈ db.invitations.filter (fun i =>
        i.token == token && i.accepted_at.isNone && decide (now < i.expires_at) &&
        ¬ (db.organizations.filter (fun o => o.id == i.organization_id)).isEmpty) := by
      rw [hfl]; exact List.mem_cons_self _ _
    obtain ⟨hinvmem, hpred⟩ := List.mem_filter.mp hmem
    simp only [Bool.and_eq_true, beq_iff_eq, Option.isNone_iff_eq_none,
      decide_eq_true_eq] at hpred
    obtain ⟨⟨⟨htk, hacc⟩, hexp⟩, _horg⟩ := hpred
    have hred : usersAcceptInvitation db now token password firstName lastName
        nextUserId =
      (⟨200, "Account created successfully"⟩,
       { db with users := db.users ++ [⟨nextUserId, inv.organization_id,
                   inv.email, ⟨password, acceptInvitationBcryptRounds⟩,
                   firstName, lastName, inv.role, "active"⟩]
               , invitations := db.invitations.map (fun i =>
                   if i.id == inv.id then { i with accepted_at := some now }
                   else i)
               , audit_logs := db.audit_logs ++
                   [⟨inv.organization_id, some nextUserId, "user_registered",
                     "user", some nextUserId, none,
                     some [("email", inv.email), ("role", inv.role)], none,
                     now⟩] }) := by
      unfold usersAcceptInvitation
      rw [if_neg hcond, hfl]
    constructor
    · refine ⟨inv, hinvmem, htk, hacc, hexp, ?_, ?_, ?_⟩
      · rw [hred]
      · rw [hred]
      · intro j hj hjt
        rw [hred] at hj
        obtain ⟨i, hi, rfl⟩ := List.mem_map.mp hj
        by_cases hid : i.id == inv.id
        · simp [hid]
        · simp only [hid, if_neg, Bool.false_eq_true, ite_false] at hjt ⊢
          exact absurd (huniq i hi inv hinvmem hjt htk) (by simpa using hid)
    · intro now2 pw2 fn2 ln2 nid2
      rw [hred]
      by_cases hc2 : token = "" ∨ pw2 = "" ∨ fn2 = "" ∨ ln2 = ""
      · constructor
        · unfold usersAcceptInvitation
          rw [if_pos hc2]
        · unfold usersAcceptInvitation
          rw [if_pos hc2]
      · have hfl2 : (db.invitations.map (fun i =>
            if i.id == inv.id then { i with accepted_at := some now }
            else i)).filter (fun i =>
              i.token == token && i.accepted_at.isNone &&
              decide (now2 < i.expires_at) &&
              ¬ ((db.organizations.filter
                    (fun o => o.id == i.organization_id)).isEmpty)) = [] := by
          apply List.filter_eq_nil_iff.mpr
          intro j hj
          obtain ⟨i, hi, rfl⟩ := List.mem_map.mp hj
          by_cases hid : i.id == inv.id
          · simp [hid]
          · simp only [hid, Bool.false_eq_true, ite_false]
            by_cases hit : i.token = token
            · exact absurd (huniq i hi inv hinvmem hit htk) (by simpa using hid)
            · simp [hit]
        constructor
        · show (usersAcceptInvitation _ now2 token pw2 fn2 ln2 nid2).1.status = 400
          unfold usersAcceptInvitation
          rw [if_neg hc2]
          simp only [hfl2]
        · show (usersAcceptInvitation _ now2 token pw2 fn2 ln2 nid2).2 = _
          unfold usersAcceptInvitation
          rw [if_neg hc2]
          simp only [hfl2]

/-- Witness for C2: a fresh valid invitation accepted once, then replayed. -/
theorem C2_accept_invitation_single_use_witness :
    ("tok" ≠ "" ∧
     (([⟨5, 1, "e@x", "manager", "tok", 100, none, 9⟩] : List Invitation).filter
        (fun i => i.token == "tok" && i.accepted_at.isNone &&
          decide ((50 : Nat) < i.expires_at) &&
          ¬ (([⟨1, "Acme", none, 100, 1000⟩] : List Organization).filter
              (fun o => o.id == i.organization_id)).isEmpty)).isEmpty = false) ∧
    (usersAcceptInvitation
      (usersAcceptInvitation
        ⟨[⟨1, "Acme", none, 100, 1000⟩], [],
         [⟨5, 1, "e@x", "manager", "tok", 100, none, 9⟩], [], [], [], []⟩
        50 "tok" "pw" "F" "L" 77).2
      60 "tok" "pw2" "G" "M" 78).1.status = 400 :=
  ⟨⟨by decide, by decide⟩,
   ((C2_accept_invitation_single_use
      ⟨[⟨1, "Acme", none, 100, 1000⟩], [],
       [⟨5, 1, "e@x", "manager", "tok", 100, none, 9⟩], [], [], [], []⟩
      50 "tok" "pw" "F" "L" 77
      (by decide) (by decide) (by decide) (by decide) (by decide)
      (by decide)).2 60 "pw2" "G" "M" 78).1⟩

end CRM
